import Mathlib

/-!
Verification of the `web4all` accessibility engine (`main.py`).

The file embeds the data model and the operations of the
`WebAccessibilityChecker` class: the six category checkers
(`check_alt_text`, `check_heading_structure`, `check_descriptive_links`,
`check_form_labels`, `check_semantic_structure`, `check_color_contrast`)
and the aggregator `run_accessibility_check`.  Floating-point scores are
modelled by exact rationals; Python's `round` (banker's rounding) is
modelled by `pyRound`.  A parsed document is modelled by the collections
of elements the checkers actually query from the soup.
-/

/-- Python `str.strip()`: remove leading and trailing whitespace. -/
def pyStrip (s : String) : String :=
  ⟨((s.data.dropWhile Char.isWhitespace).reverse.dropWhile Char.isWhitespace).reverse⟩

/-- Python `str.lower()` (ASCII case folding, which covers the inputs used here). -/
def pyLower (s : String) : String :=
  ⟨s.data.map Char.toLower⟩

/-- Python `round` on an exact rational: round to nearest, ties to even. -/
def pyRound (q : ℚ) : ℤ :=
  if q - ⌊q⌋ < 1/2 then ⌊q⌋
  else if 1/2 < q - ⌊q⌋ then ⌊q⌋ + 1
  else if ⌊q⌋ % 2 = 0 then ⌊q⌋ else ⌊q⌋ + 1

/-- Python `min` on two rationals (kernel-reducible). -/
def pyMin (a b : ℚ) : ℚ := if a ≤ b then a else b

/-- Python `max` on two rationals (kernel-reducible). -/
def pyMax (a b : ℚ) : ℚ := if a ≤ b then b else a

theorem pyMin_eq (a b : ℚ) : pyMin a b = min a b := (min_def a b).symm

theorem pyMax_eq (a b : ℚ) : pyMax a b = max a b := (max_def a b).symm

/-- An `img` element, as queried by `check_alt_text`: its `alt` attribute
(`none` when the attribute is absent), its `role` attribute and its `src`. -/
structure Img where
  alt : Option String
  role : Option String
  src : Option String
deriving DecidableEq, Repr

/-- The loop body of `check_alt_text`: walk the images accumulating
`(missing_alt, empty_alt, issues)` exactly as the Python `for` loop does. -/
def altLoop : List Img → Nat × Nat × List String
  | [] => (0, 0, [])
  | i :: rest =>
    let r := altLoop rest
    match i.alt with
    | none =>
      (r.1 + 1, r.2.1, ("Image missing alt attribute: " ++ i.src.getD "unknown") :: r.2.2)
    | some a =>
      if pyStrip a = "" ∧ i.role ≠ some "presentation" then
        (r.1, r.2.1 + 1, ("Image has empty alt text: " ++ i.src.getD "unknown") :: r.2.2)
      else r

/-- `WebAccessibilityChecker.check_alt_text`. -/
def check_alt_text (imgs : List Img) : ℚ × List String :=
  if imgs.length = 0 then (1, [])
  else
    let r := altLoop imgs
    let score : ℚ := 1 - (((r.1 : ℚ) + (r.2.1 : ℚ) * (1/2)) / (imgs.length : ℚ))
    (pyMax 0 (pyMin score 1), r.2.2)

/-- An image counts as a full miss: the `alt` attribute is absent. -/
def isFullMiss (i : Img) : Bool := i.alt.isNone

/-- An image counts as a half miss: blank `alt` present and the image is
not marked decorative via `role="presentation"`. -/
def isHalfMiss (i : Img) : Bool :=
  match i.alt with
  | none => false
  | some a => decide (pyStrip a = "" ∧ i.role ≠ some "presentation")

/-- The loop body of `check_heading_structure`: walk the heading levels in
document order, threading the previous level (initially 0), counting the
skips and recording one issue per skip, as the Python loop does. -/
def headLoop : Nat → List Nat → Nat × List String
  | _, [] => (0, [])
  | prev, l :: rest =>
    let r := headLoop l rest
    if l > prev + 1 ∧ prev > 0 then
      (r.1 + 1, ("Heading level skip from h" ++ toString prev ++ " to h" ++ toString l) :: r.2)
    else r

/-- `WebAccessibilityChecker.check_heading_structure`.  The input is the
list of heading levels (1–6) in document order. -/
def check_heading_structure (levels : List Nat) : ℚ × List String :=
  if levels = [] then (0, ["No headings found on page"])
  else
    let h1_count := (levels.filter (fun l => l == 1)).length
    let h1Issues : List String :=
      if h1_count = 0 then ["No H1 heading found"]
      else if h1_count > 1 then ["Multiple H1 headings found (" ++ toString h1_count ++ ")"]
      else []
    let w := headLoop 0 levels
    let score1 : ℚ :=
      if h1_count = 0 then 1 - 1/2
      else if h1_count > 1 then 1 - 3/10
      else 1
    let score2 : ℚ :=
      if w.1 > 0 then score1 - pyMin (1/2) ((w.1 : ℚ) * (1/10)) else score1
    (pyMax 0 score2, h1Issues ++ w.2)

/-- An `a` element, as queried by `check_descriptive_links`: its visible
text (`get_text()`), whether it contains an `img` child, and its `href`. -/
structure Anchor where
  text : String
  hasImg : Bool
  href : Option String
deriving DecidableEq, Repr

/-- The fixed list of non-descriptive link texts from `check_descriptive_links`. -/
def poor_link_texts : List String :=
  ["click here", "read more", "more", "link", "here", "this", "page"]

/-- The loop body of `check_descriptive_links`: walk the anchors counting
poor links and recording issues, as the Python loop does. -/
def linkLoop : List Anchor → Nat × List String
  | [] => (0, [])
  | a :: rest =>
    let r := linkLoop rest
    let t := pyLower (pyStrip a.text)
    if a.hasImg = true ∧ t = "" then r
    else if t = "" then
      (r.1 + 1, ("Empty link text: " ++ a.href.getD "unknown") :: r.2)
    else if t ∈ poor_link_texts ∨ t.length < 3 then
      (r.1 + 1,
        ("Non-descriptive link text: \x27" ++ t ++ "\x27 for " ++ a.href.getD "unknown") :: r.2)
    else r

/-- `WebAccessibilityChecker.check_descriptive_links`. -/
def check_descriptive_links (anchors : List Anchor) : ℚ × List String :=
  if anchors = [] then (1, [])
  else
    let r := linkLoop anchors
    let score : ℚ := 1 - ((r.1 : ℚ) / (anchors.length : ℚ))
    (pyMax 0 score, r.2)

/-- Tag of a form control queried by `check_form_labels`. -/
inductive CtrlTag
  | input
  | select
  | textarea
deriving DecidableEq, Repr

/-- A form control, as queried by `check_form_labels`: its tag, `type`,
`id`, `aria-label` and `name` attributes, and whether a `label` element
occurs in its ancestor chain. -/
structure FormControl where
  tag : CtrlTag
  type : Option String
  id : Option String
  ariaLabel : Option String
  inLabel : Bool
  name : Option String
deriving DecidableEq, Repr

/-- The excluded input types of `check_form_labels`. -/
def excluded_types : List String := ["hidden", "submit", "button", "image"]

/-- The skip condition of `check_form_labels`: an `input` whose `type`
is hidden, submit, button or image. -/
def ctrlExcluded (c : FormControl) : Bool :=
  c.tag == CtrlTag.input &&
    (match c.type with
     | some t => excluded_types.contains t
     | none => false)

/-- The label test of `check_form_labels`: a referencing `label` (via the
document's `label for=` values), an ancestor `label`, or a non-blank
`aria-label`. -/
def ctrlLabeled (labelFors : List String) (c : FormControl) : Bool :=
  (match c.id with
   | some i => labelFors.contains i
   | none => false)
  || c.inLabel
  || (match c.ariaLabel with
      | some a => !(pyStrip a == "")
      | none => false)

/-- The loop body of `check_form_labels`: walk the controls accumulating
`(total_inputs, unlabeled, issues)` exactly as the Python loop does. -/
def fcLoop (labelFors : List String) : List FormControl → Nat × Nat × List String
  | [] => (0, 0, [])
  | c :: rest =>
    let r := fcLoop labelFors rest
    if ctrlExcluded c = true then r
    else if ctrlLabeled labelFors c = true then (r.1 + 1, r.2.1, r.2.2)
    else
      (r.1 + 1, r.2.1 + 1,
        ("Form control missing label: " ++ c.name.getD "unnamed" ++ " " ++ c.type.getD "")
          :: r.2.2)

/-- `WebAccessibilityChecker.check_form_labels`.  `labelFors` is the list
of `for` attribute values of the document's `label` elements. -/
def check_form_labels (labelFors : List String) (ctrls : List FormControl) : ℚ × List String :=
  if ctrls = [] then (1, [])
  else
    let r := fcLoop labelFors ctrls
    if r.1 = 0 then (1, [])
    else (pyMax 0 (1 - ((r.2.1 : ℚ) / (r.1 : ℚ))), r.2.2)

/-- A semantic landmark element tag, as queried by `check_semantic_structure`
(`sectionEl` stands for the HTML `section` tag). -/
inductive Landmark
  | header
  | footer
  | nav
  | main
  | article
  | sectionEl
  | aside
deriving DecidableEq, Repr

/-- `WebAccessibilityChecker.check_semantic_structure`.  The input is the
list of landmark elements of the document, in document order. -/
def check_semantic_structure (landmarks : List Landmark) : ℚ × List String :=
  let score : ℚ := pyMin 1 ((landmarks.length : ℚ) / 3)
  let issues : List String :=
    if landmarks.length = 0 then ["No semantic HTML elements found"] else []
  if landmarks.contains Landmark.main then (pyMax 0 score, issues)
  else (pyMax 0 (score - 3/10), issues ++ ["No <main> element found"])

/-- Python `\s` on the ASCII range (whitespace class used by `re.search`). -/
def isPyWs (c : Char) : Bool :=
  c == ' ' || c == '\t' || c == '\n' || c == '\r' || c == '\x0b' || c == '\x0c'

/-- Match a literal character sequence at the head of the input, returning
the rest on success. -/
def stripLit : List Char → List Char → Option (List Char)
  | [], l => some l
  | _, [] => none
  | p :: ps, c :: cs => if c == p then stripLit ps cs else none

/-- Character class `[ef]` of the light-color regex. -/
def isEF (c : Char) : Bool := c == 'e' || c == 'f'

/-- Character class `[0-2]` of the dark-color regex. -/
def isD02 (c : Char) : Bool := c == '0' || c == '1' || c == '2'

/-- Character class `[3-5]` of the light-color regex. -/
def isD35 (c : Char) : Bool := c == '3' || c == '4' || c == '5'

/-- The light-color regex of `check_color_contrast`,
`color:\s*#[ef][ef][ef]|color:\s*rgb\(2[3-5]\d`, matched at the head of
the input. -/
def lightAt (l : List Char) : Bool :=
  match stripLit "color:".data l with
  | none => false
  | some rest =>
    let r := rest.dropWhile isPyWs
    (match r with
     | '#' :: a :: b :: c :: _ => isEF a && isEF b && isEF c
     | _ => false) ||
    (match stripLit "rgb(".data r with
     | some ('2' :: d :: e :: _) => isD35 d && e.isDigit
     | _ => false)

/-- The dark-color regex of `check_color_contrast`,
`color:\s*#[0-2][0-2][0-2]|color:\s*rgb\([0-2]\d`, matched at the head of
the input. -/
def darkAt (l : List Char) : Bool :=
  match stripLit "color:".data l with
  | none => false
  | some rest =>
    let r := rest.dropWhile isPyWs
    (match r with
     | '#' :: a :: b :: c :: _ => isD02 a && isD02 b && isD02 c
     | _ => false) ||
    (match stripLit "rgb(".data r with
     | some (d :: e :: _) => isD02 d && e.isDigit
     | _ => false)

/-- `re.search`: the pattern matches at some position of the input. -/
def reSearch (p : List Char → Bool) : List Char → Bool
  | [] => p []
  | c :: rest => p (c :: rest) || reSearch p rest

/-- Substring containment (the CSS attribute selector `[style*="..."]`). -/
def containsSeq (pat : List Char) : List Char → Bool :=
  reSearch (fun t => (stripLit pat t).isSome)

/-- The loop body of `check_color_contrast`: for each selected element's
style string, count a light match and a dark match independently,
recording one issue per match, as the Python loop does. -/
def ccLoop : List String → Nat × List String
  | [] => (0, [])
  | s :: rest =>
    let r := ccLoop rest
    let withDark :=
      if reSearch darkAt s.data = true then (r.1 + 1, "Potential low contrast dark text" :: r.2)
      else r
    if reSearch lightAt s.data = true then
      (withDark.1 + 1, "Potential low contrast light text" :: withDark.2)
    else withDark

/-- `WebAccessibilityChecker.check_color_contrast`.  The input is the list
of `style` attribute values of the document's elements; the CSS selector
`[style*="color"]` keeps those containing the substring `color`. -/
def check_color_contrast (styles : List String) : ℚ × List String :=
  let selected := styles.filter (fun s => containsSeq "color".data s.data)
  let r := ccLoop selected
  let score : ℚ := 1 - pyMin (1/2) ((r.1 : ℚ) * (1/10))
  if r.2 = [] then (score, ["Limited contrast check performed (inline styles only)"])
  else (score, r.2)

/-- A parsed document, holding the element collections the six checkers
query from the soup. -/
structure Document where
  imgs : List Img
  headings : List Nat
  anchors : List Anchor
  controls : List FormControl
  labelFors : List String
  landmarks : List Landmark
  styles : List String
deriving DecidableEq, Repr

/-- One category's result: a score in `[0,1]` and its issue list. -/
structure CategoryResult where
  score : ℚ
  issues : List String
deriving DecidableEq, Repr

/-- The report assembled by `run_accessibility_check`. -/
structure Report where
  url : String
  categories : List (String × CategoryResult)
  total_score : ℤ
  issues : List String
deriving DecidableEq, Repr

/-- The fixed category weights of `run_accessibility_check`. -/
def category_weights : List (String × ℚ) :=
  [("images", 15/100), ("headings", 15/100), ("links", 10/100),
   ("forms", 15/100), ("structure", 20/100), ("contrast", 15/100)]

/-- The weighted-score accumulation loop of `run_accessibility_check`:
fold over the category results, adding `score × weight` and `weight` for
every category present in `category_weights`. -/
def weightedFold (cats : List (String × CategoryResult)) : ℚ × ℚ :=
  cats.foldl
    (fun acc c =>
      match List.lookup c.1 category_weights with
      | some w => (acc.1 + c.2.score * w, acc.2 + w)
      | none => acc)
    (0, 0)

/-- `WebAccessibilityChecker.run_accessibility_check`.  `soup` is `none`
when the fetch/parse of the URL failed. -/
def run_accessibility_check (url : String) (soup : Option Document) : Report :=
  match soup with
  | none =>
    { url := url, categories := [], total_score := 0, issues := ["Failed to fetch URL"] }
  | some d =>
    let ri := check_alt_text d.imgs
    let rh := check_heading_structure d.headings
    let rl := check_descriptive_links d.anchors
    let rf := check_form_labels d.labelFors d.controls
    let rs := check_semantic_structure d.landmarks
    let rc := check_color_contrast d.styles
    let cats : List (String × CategoryResult) :=
      [("images", ⟨ri.1, ri.2⟩), ("headings", ⟨rh.1, rh.2⟩), ("links", ⟨rl.1, rl.2⟩),
       ("forms", ⟨rf.1, rf.2⟩), ("structure", ⟨rs.1, rs.2⟩), ("contrast", ⟨rc.1, rc.2⟩)]
    let tw := weightedFold cats
    let normalized : ℚ := if tw.2 > 0 then tw.1 / tw.2 else 0
    { url := url, categories := cats,
      total_score := pyRound (normalized * 100),
      issues := ri.2 ++ rh.2 ++ rl.2 ++ rf.2 ++ rs.2 ++ rc.2 }

/-! ### Characterization of the alt-text loop -/

theorem altLoop_full (l : List Img) : (altLoop l).1 = (l.filter isFullMiss).length := by
  induction l with
  | nil => rfl
  | cons i rest ih =>
    cases h : i.alt with
    | none => simp [altLoop, h, isFullMiss, List.filter_cons, ih]
    | some a =>
      by_cases hc : pyStrip a = "" ∧ i.role ≠ some "presentation"
      · simp [altLoop, h, hc, isFullMiss, List.filter_cons, ih]
      · simp [altLoop, h, hc, isFullMiss, List.filter_cons, ih]

theorem altLoop_half (l : List Img) : (altLoop l).2.1 = (l.filter isHalfMiss).length := by
  induction l with
  | nil => rfl
  | cons i rest ih =>
    cases h : i.alt with
    | none => simp [altLoop, h, isHalfMiss, List.filter_cons, ih]
    | some a =>
      by_cases hc : pyStrip a = "" ∧ i.role ≠ some "presentation"
      · simp [altLoop, h, hc, isHalfMiss, List.filter_cons, ih]
      · simp [altLoop, h, hc, isHalfMiss, List.filter_cons, ih]

theorem altLoop_issues_len (l : List Img) :
    (altLoop l).2.2.length = (altLoop l).1 + (altLoop l).2.1 := by
  induction l with
  | nil => rfl
  | cons i rest ih =>
    cases h : i.alt with
    | none => simp [altLoop, h, ih]; omega
    | some a =>
      by_cases hc : pyStrip a = "" ∧ i.role ≠ some "presentation"
      · simp [altLoop, h, hc, ih]; omega
      · simp [altLoop, h, hc, ih]

/-- C4: for every document, the alt-text checker returns score 1.0 and no
issues when there are no images; otherwise its score is
`1 − (fullMisses + 0.5·halfMisses)/totalImages` clamped to `[0,1]`, where a
missing `alt` is a full miss and a blank non-decorative `alt` is a half
miss, and it emits one issue per miss. -/
theorem alt_text_score_spec (imgs : List Img) :
    (imgs = [] → check_alt_text imgs = (1, [])) ∧
    (imgs ≠ [] →
      (check_alt_text imgs).1 =
        max 0 (min (1 - (((imgs.filter isFullMiss).length : ℚ) +
          ((imgs.filter isHalfMiss).length : ℚ) * (1/2)) / (imgs.length : ℚ)) 1) ∧
      (check_alt_text imgs).2.length =
        (imgs.filter isFullMiss).length + (imgs.filter isHalfMiss).length) := by
  constructor
  · rintro rfl; rfl
  · intro h
    have hl : ¬ imgs.length = 0 := by simpa [List.length_eq_zero] using h
    constructor
    · simp only [check_alt_text, if_neg hl, pyMax_eq, pyMin_eq, altLoop_full, altLoop_half]
    · simp only [check_alt_text, if_neg hl]
      rw [altLoop_issues_len, altLoop_full, altLoop_half]

/-! ### Heading structure -/

/-- The h1 penalty described by the spec: 0.5 when there is no h1, 0.3
when there is more than one, otherwise 0. -/
def h1Penalty (levels : List Nat) : ℚ :=
  if (levels.filter (fun l => l == 1)).length = 0 then 1/2
  else if (levels.filter (fun l => l == 1)).length > 1 then 3/10
  else 0

theorem cond_skip_penalty (s1 : ℚ) (k : Nat) :
    (if k > 0 then s1 - min (1/2) ((k : ℚ) * (1/10)) else s1) =
      s1 - min (1/2) ((k : ℚ) * (1/10)) := by
  by_cases h : k > 0
  · rw [if_pos h]
  · rw [if_neg h]
    have hk : k = 0 := by omega
    subst hk
    norm_num

theorem score1_eq_h1Penalty (levels : List Nat) :
    (if (levels.filter (fun l => l == 1)).length = 0 then (1 : ℚ) - 1/2
     else if (levels.filter (fun l => l == 1)).length > 1 then 1 - 3/10 else 1) =
    1 - h1Penalty levels := by
  unfold h1Penalty
  split_ifs <;> norm_num

/-- C5: the heading checker returns score 0 with the single
"no headings" issue when there are no headings; otherwise its score is
`max 0 (1 − h1Penalty − min(0.5, skips × 0.1))`, where the skips are
counted by the document-order walk `headLoop` starting from previous
level 0. -/
theorem heading_structure_score_spec (levels : List Nat) :
    (levels = [] → check_heading_structure levels = (0, ["No headings found on page"])) ∧
    (levels ≠ [] →
      (check_heading_structure levels).1 =
        max 0 (1 - h1Penalty levels - min (1/2) (((headLoop 0 levels).1 : ℚ) * (1/10)))) := by
  constructor
  · rintro rfl; rfl
  · intro h
    simp only [check_heading_structure, if_neg h, pyMax_eq, pyMin_eq]
    rw [cond_skip_penalty, score1_eq_h1Penalty]

/-- Witness for C5: a document with only h1 followed by h3 scores
`1 − 0.1 = 0.9` with exactly one skip issue. -/
theorem heading_structure_score_spec_witness :
    ([1, 3] : List Nat) ≠ [] ∧ (check_heading_structure [1, 3]).1 = 9/10 ∧
    (check_heading_structure [1, 3]).2 = ["Heading level skip from h1 to h3"] := by
  have h := (heading_structure_score_spec [1, 3]).2 (by decide)
  have e0 : h1Penalty [1, 3] = 0 := by decide
  have e1 : (headLoop 0 [1, 3]).1 = 1 := by decide
  refine ⟨by decide, ?_, ?_⟩
  · rw [h, e0, e1, min_def, max_def]
    norm_num
  · decide

/-! ### Descriptive links -/

/-- The per-anchor miss test of `check_descriptive_links`: not skipped
(image child with no text), and either empty text or a poor/short text. -/
def anchorPoor (a : Anchor) : Bool :=
  let t := pyLower (pyStrip a.text)
  if a.hasImg = true ∧ t = "" then false
  else if t = "" then true
  else if t ∈ poor_link_texts ∨ t.length < 3 then true
  else false

theorem linkLoop_count (l : List Anchor) : (linkLoop l).1 = (l.filter anchorPoor).length := by
  induction l with
  | nil => rfl
  | cons a rest ih =>
    by_cases hi : a.hasImg = true <;>
      by_cases h2 : pyLower (pyStrip a.text) = "" <;>
        by_cases h3 : pyLower (pyStrip a.text) ∈ poor_link_texts ∨
          (pyLower (pyStrip a.text)).length < 3 <;>
        simp [linkLoop, anchorPoor, List.filter_cons, hi, h2, h3, ih]

theorem linkLoop_issues_len (l : List Anchor) : (linkLoop l).2.length = (linkLoop l).1 := by
  induction l with
  | nil => rfl
  | cons a rest ih =>
    by_cases hi : a.hasImg = true <;>
      by_cases h2 : pyLower (pyStrip a.text) = "" <;>
        by_cases h3 : pyLower (pyStrip a.text) ∈ poor_link_texts ∨
          (pyLower (pyStrip a.text)).length < 3 <;>
        simp [linkLoop, h2, h3, hi, ih]

/-- C6: the links checker returns score 1.0 with no issues when there are
no anchors; otherwise its score is `1 − misses/totalLinks` clamped to
`[0,1]` — every anchor counts in the denominator, including skipped
image-anchors — with one issue per miss. -/
theorem descriptive_links_score_spec (anchors : List Anchor) :
    (anchors = [] → check_descriptive_links anchors = (1, [])) ∧
    (anchors ≠ [] →
      (check_descriptive_links anchors).1 =
        max 0 (min (1 - ((anchors.filter anchorPoor).length : ℚ) / (anchors.length : ℚ)) 1) ∧
      (check_descriptive_links anchors).2.length = (anchors.filter anchorPoor).length) := by
  constructor
  · rintro rfl; rfl
  · intro h
    constructor
    · simp only [check_descriptive_links, if_neg h, pyMax_eq, linkLoop_count]
      have hp : (0:ℚ) ≤ ((anchors.filter anchorPoor).length : ℚ) / (anchors.length : ℚ) :=
        div_nonneg (Nat.cast_nonneg _) (Nat.cast_nonneg _)
      rw [min_eq_left (by linarith :
        1 - ((anchors.filter anchorPoor).length : ℚ) / (anchors.length : ℚ) ≤ 1)]
    · simp only [check_descriptive_links, if_neg h]
      rw [linkLoop_issues_len, linkLoop_count]

/-- The links example document: 5 anchors, two of which read "click here". -/
def anchors5 : List Anchor :=
  [⟨"Home news today", false, some "/a"⟩, ⟨"click here", false, some "/b"⟩,
   ⟨"About our team", false, none⟩, ⟨" Click HERE ", false, some "/d"⟩,
   ⟨"Contact support", false, none⟩]

/-- Witness for C6: on `anchors5` the checker scores `1 − 2/5 = 0.6` with
two issues. -/
theorem descriptive_links_score_spec_witness :
    anchors5 ≠ [] ∧ (check_descriptive_links anchors5).1 = 3/5 ∧
    (check_descriptive_links anchors5).2.length = 2 := by
  have h := (descriptive_links_score_spec anchors5).2 (by decide)
  have e1 : (anchors5.filter anchorPoor).length = 2 := by decide
  have e2 : anchors5.length = 5 := by decide
  refine ⟨by decide, ?_, ?_⟩
  · rw [h.1, e1, e2, min_def, max_def]
    norm_num
  · rw [h.2, e1]

/-! ### Form labels -/

/-- A control counts toward the form-label denominator: it is not an
excluded input type. -/
def ctrlQualifies (c : FormControl) : Bool := !(ctrlExcluded c)

theorem fcLoop_total (fors : List String) (l : List FormControl) :
    (fcLoop fors l).1 = (l.filter ctrlQualifies).length := by
  induction l with
  | nil => rfl
  | cons c rest ih =>
    by_cases hE : ctrlExcluded c = true <;>
      by_cases hL : ctrlLabeled fors c = true <;>
        simp [fcLoop, ctrlQualifies, List.filter_cons, hE, hL, ih]

theorem fcLoop_unlabeled (fors : List String) (l : List FormControl) :
    (fcLoop fors l).2.1 =
      (l.filter (fun c => ctrlQualifies c && !(ctrlLabeled fors c))).length := by
  induction l with
  | nil => rfl
  | cons c rest ih =>
    by_cases hE : ctrlExcluded c = true <;>
      by_cases hL : ctrlLabeled fors c = true <;>
        simp [fcLoop, ctrlQualifies, List.filter_cons, hE, hL, ih]

theorem fcLoop_issues_len (fors : List String) (l : List FormControl) :
    (fcLoop fors l).2.2.length = (fcLoop fors l).2.1 := by
  induction l with
  | nil => rfl
  | cons c rest ih =>
    by_cases hE : ctrlExcluded c = true <;>
      by_cases hL : ctrlLabeled fors c = true <;>
        simp [fcLoop, hE, hL, ih]

/-- C7: the form-labels checker returns score 1.0 with no issues when no
qualifying control exists (input types hidden/submit/button/image are
excluded); otherwise its score is `1 − unlabeled/totalQualifying` clamped
to `[0,1]`, a control being labeled iff it has a referencing `label`, an
ancestor `label`, or a non-blank `aria-label`, with one issue per
unlabeled control. -/
theorem form_labels_score_spec (fors : List String) (ctrls : List FormControl) :
    ((ctrls.filter ctrlQualifies).length = 0 → check_form_labels fors ctrls = (1, [])) ∧
    ((ctrls.filter ctrlQualifies).length ≠ 0 →
      (check_form_labels fors ctrls).1 =
        max 0 (min (1 -
          ((ctrls.filter (fun c => ctrlQualifies c && !(ctrlLabeled fors c))).length : ℚ) /
          ((ctrls.filter ctrlQualifies).length : ℚ)) 1) ∧
      (check_form_labels fors ctrls).2.length =
        (ctrls.filter (fun c => ctrlQualifies c && !(ctrlLabeled fors c))).length) := by
  constructor
  · intro h
    by_cases hc : ctrls = []
    · subst hc; rfl
    · have h0 : (fcLoop fors ctrls).1 = 0 := by rw [fcLoop_total]; exact h
      simp [check_form_labels, hc, h0]
  · intro h
    have hc : ctrls ≠ [] := by rintro rfl; exact h rfl
    have h0 : ¬ (fcLoop fors ctrls).1 = 0 := by rw [fcLoop_total]; exact h
    constructor
    · simp only [check_form_labels, if_neg hc, fcLoop_total, fcLoop_unlabeled, pyMax_eq,
        if_neg h]
      have hp : (0:ℚ) ≤
          ((ctrls.filter (fun c => ctrlQualifies c && !(ctrlLabeled fors c))).length : ℚ) /
          ((ctrls.filter ctrlQualifies).length : ℚ) :=
        div_nonneg (Nat.cast_nonneg _) (Nat.cast_nonneg _)
      rw [min_eq_left (by linarith :
        1 - ((ctrls.filter (fun c => ctrlQualifies c && !(ctrlLabeled fors c))).length : ℚ) /
          ((ctrls.filter ctrlQualifies).length : ℚ) ≤ 1)]
    · simp only [check_form_labels, if_neg hc, if_neg h0]
      rw [fcLoop_issues_len, fcLoop_unlabeled]

/-- The form example document: 3 text inputs — one labeled through a
`label for=` reference, one through `aria-label`, one unlabeled. -/
def ctrls3 : List FormControl :=
  [⟨CtrlTag.input, some "text", some "fld1", none, false, some "first"⟩,
   ⟨CtrlTag.input, some "text", none, some "Your name", false, some "second"⟩,
   ⟨CtrlTag.input, some "text", none, none, false, none⟩]

/-- Witness for C7: on `ctrls3` with a label referencing `fld1` the
checker scores `1 − 1/3 = 2/3` with one issue. -/
theorem form_labels_score_spec_witness :
    (ctrls3.filter ctrlQualifies).length ≠ 0 ∧
    (check_form_labels ["fld1"] ctrls3).1 = 2/3 ∧
    (check_form_labels ["fld1"] ctrls3).2.length = 1 := by
  have h := (form_labels_score_spec ["fld1"] ctrls3).2 (by decide)
  have e1 : (ctrls3.filter (fun c => ctrlQualifies c && !(ctrlLabeled ["fld1"] c))).length = 1 :=
    by decide
  have e2 : (ctrls3.filter ctrlQualifies).length = 3 := by decide
  refine ⟨by decide, ?_, ?_⟩
  · rw [h.1, e1, e2, min_def, max_def]
    norm_num
  · rw [h.2, e1]

/-! ### Semantic structure -/

/-- C8: the structure checker scores `min(1, landmarks/3)`, minus an
additional 0.3 when no `main` element exists, clamped to `≥ 0`; it emits
the "no semantic elements" issue exactly when the landmark count is 0 and
the "no main" issue exactly when `main` is absent. -/
theorem semantic_structure_spec (landmarks : List Landmark) :
    (check_semantic_structure landmarks).1 =
      max 0 (min 1 ((landmarks.length : ℚ) / 3) -
        (if landmarks.contains Landmark.main then 0 else 3/10)) ∧
    (check_semantic_structure landmarks).2 =
      (if landmarks.length = 0 then ["No semantic HTML elements found"] else []) ++
      (if landmarks.contains Landmark.main then [] else ["No <main> element found"]) ∧
    (landmarks = [] →
      (check_semantic_structure landmarks).1 = 0 ∧
      (check_semantic_structure landmarks).2 =
        ["No semantic HTML elements found", "No <main> element found"]) := by
  refine ⟨?_, ?_, ?_⟩
  · by_cases hm : Landmark.main ∈ landmarks
    · simp [check_semantic_structure, hm, pyMin_eq, pyMax_eq]
    · simp [check_semantic_structure, hm, pyMin_eq, pyMax_eq]
  · by_cases hm : Landmark.main ∈ landmarks
    · simp [check_semantic_structure, hm]
    · simp [check_semantic_structure, hm]
  · rintro rfl
    refine ⟨?_, rfl⟩
    norm_num [check_semantic_structure, pyMin, pyMax]

/-- Witness for C8: a document with zero landmark elements (hence no
`main`) scores `max(0, 0 − 0.3) = 0` with the two issues. -/
theorem semantic_structure_spec_witness :
    (check_semantic_structure []).1 = 0 ∧
    (check_semantic_structure []).2 =
      ["No semantic HTML elements found", "No <main> element found"] :=
  (semantic_structure_spec []).2.2 rfl

/-! ### Color contrast -/

theorem ccLoop_count (l : List String) :
    (ccLoop l).1 = (l.filter (fun s => reSearch lightAt s.data)).length +
      (l.filter (fun s => reSearch darkAt s.data)).length := by
  induction l with
  | nil => rfl
  | cons s rest ih =>
    by_cases hL : reSearch lightAt s.data = true <;>
      by_cases hD : reSearch darkAt s.data = true <;>
        simp [ccLoop, List.filter_cons, hL, hD, ih] <;> omega

theorem ccLoop_light_count (l : List String) :
    List.count "Potential low contrast light text" (ccLoop l).2 =
      (l.filter (fun s => reSearch lightAt s.data)).length := by
  induction l with
  | nil => rfl
  | cons s rest ih =>
    by_cases hL : reSearch lightAt s.data = true <;>
      by_cases hD : reSearch darkAt s.data = true <;>
        simp +decide [ccLoop, List.filter_cons, List.count_cons, hL, hD, ih]

theorem ccLoop_dark_count (l : List String) :
    List.count "Potential low contrast dark text" (ccLoop l).2 =
      (l.filter (fun s => reSearch darkAt s.data)).length := by
  induction l with
  | nil => rfl
  | cons s rest ih =>
    by_cases hL : reSearch lightAt s.data = true <;>
      by_cases hD : reSearch darkAt s.data = true <;>
        simp +decide [ccLoop, List.filter_cons, List.count_cons, hL, hD, ih]

/-- Value of a hexadecimal digit character. -/
def hexVal (c : Char) : Option Nat :=
  if c.isDigit then some (c.toNat - '0'.toNat)
  else if 'a' ≤ c ∧ c ≤ 'f' then some (c.toNat - 'a'.toNat + 10)
  else if 'A' ≤ c ∧ c ≤ 'F' then some (c.toNat - 'A'.toNat + 10)
  else none

/-- R, G, B channels of a six-hex-digit color value. -/
def hexChannels : List Char → Option (Nat × Nat × Nat)
  | [c1, c2, c3, c4, c5, c6] =>
    match hexVal c1, hexVal c2, hexVal c3, hexVal c4, hexVal c5, hexVal c6 with
    | some a, some b, some c, some d, some e, some f =>
      some (16 * a + b, 16 * c + d, 16 * e + f)
    | _, _, _, _, _, _ => none
  | _ => none

/-- Formalization of the SPEC/claim wording for the light-text condition
(hex branch), not of the code: the style consists of `color:` followed by
optional whitespace and a six-digit hex color value each of whose R, G, B
channels is at least `0xE0`.  It is compared against the regex the code
actually uses. -/
def claimLightHex (s : String) : Bool :=
  match stripLit "color:".data s.data with
  | none => false
  | some rest =>
    match rest.dropWhile isPyWs with
    | '#' :: hs =>
      match hexChannels hs with
      | some (r, g, b) => decide (0xE0 ≤ r) && decide (0xE0 ≤ g) && decide (0xE0 ≤ b)
      | none => false
    | _ => false

/-- Counterexample for C9: the style `color: #e5e5e5` is a hex color with
every channel `0xE5 ≥ 0xE0`, so the claim predicts a counted
"potential low-contrast light text" issue and a score of at most 0.9 for a
document with this single styled element; but the code's regex
`color:\s*#[ef][ef][ef]` requires the first three hex characters to be in
`[ef]`, so the checker counts no issue and returns score 1. -/
theorem color_contrast_claim_counterexample :
    claimLightHex "color: #e5e5e5" = true ∧
    (check_color_contrast ["color: #e5e5e5"]).1 = 1 ∧
    "Potential low contrast light text" ∉ (check_color_contrast ["color: #e5e5e5"]).2 := by
  have hsel : ["color: #e5e5e5"].filter (fun s => containsSeq "color".data s.data) =
      ["color: #e5e5e5"] := by decide
  have hcc : ccLoop ["color: #e5e5e5"] = (0, []) := by decide
  refine ⟨by decide, ?_, ?_⟩
  · simp only [check_color_contrast, hsel, hcc]
    norm_num [pyMin]
  · simp only [check_color_contrast, hsel, hcc]
    decide

/-- C9 (amended): for each element whose inline style contains "color",
the checker counts one light issue iff the style matches the regex
`color:\s*#[ef][ef][ef]|color:\s*rgb\(2[3-5]\d` somewhere and one dark
issue iff it matches `color:\s*#[0-2][0-2][0-2]|color:\s*rgb\([0-2]\d`
somewhere (an element may trigger both), and the score is
`1.0 − min(0.5, matchCount × 0.1)`. -/
theorem color_contrast_regex_spec (styles : List String) :
    (check_color_contrast styles).1 =
      1 - min (1/2)
        (((((styles.filter (fun s => containsSeq "color".data s.data)).filter
            (fun s => reSearch lightAt s.data)).length : ℚ) +
          (((styles.filter (fun s => containsSeq "color".data s.data)).filter
            (fun s => reSearch darkAt s.data)).length : ℚ)) * (1/10)) ∧
    List.count "Potential low contrast light text" (check_color_contrast styles).2 =
      ((styles.filter (fun s => containsSeq "color".data s.data)).filter
        (fun s => reSearch lightAt s.data)).length ∧
    List.count "Potential low contrast dark text" (check_color_contrast styles).2 =
      ((styles.filter (fun s => containsSeq "color".data s.data)).filter
        (fun s => reSearch darkAt s.data)).length := by
  refine ⟨?_, ?_, ?_⟩
  · simp only [check_color_contrast, pyMin_eq]
    split_ifs with h <;>
      · rw [ccLoop_count]
        push_cast
        rfl
  · simp only [check_color_contrast]
    split_ifs with h
    · have hl := ccLoop_light_count
        (styles.filter (fun s => containsSeq "color".data s.data))
      rw [h, List.count_nil] at hl
      rw [← hl]
      simp +decide [List.count_cons]
    · exact ccLoop_light_count _
  · simp only [check_color_contrast]
    split_ifs with h
    · have hd := ccLoop_dark_count
        (styles.filter (fun s => containsSeq "color".data s.data))
      rw [h, List.count_nil] at hd
      rw [← hd]
      simp +decide [List.count_cons]
    · exact ccLoop_dark_count _

/-! ### Failure report and non-empty issues -/

/-- C2: when the fetch/parse of the URL fails, the checker returns a
report with total score 0, no categories, and the single issue
"Failed to fetch URL". -/
theorem fetch_failure_report (url : String) :
    run_accessibility_check url none =
      { url := url, categories := [], total_score := 0,
        issues := ["Failed to fetch URL"] } := rfl

theorem check_color_contrast_issues_ne_nil (styles : List String) :
    (check_color_contrast styles).2 ≠ [] := by
  simp only [check_color_contrast]
  split_ifs with h
  · simp
  · simpa using h

/-- C10: the contrast checker always returns a non-empty issue list (it
appends the informational inline-style disclosure when nothing matched),
so every report built from a successfully fetched document has a
non-empty flat issue list. -/
theorem report_issues_nonempty (url : String) (d : Document) :
    (check_color_contrast d.styles).2 ≠ [] ∧
    (run_accessibility_check url (some d)).issues ≠ [] := by
  refine ⟨check_color_contrast_issues_ne_nil d.styles, ?_⟩
  simp only [run_accessibility_check]
  intro hem
  exact check_color_contrast_issues_ne_nil d.styles (List.append_eq_nil.mp hem).2

/-! ### Aggregation -/

theorem weightedFold_six (c1 c2 c3 c4 c5 c6 : CategoryResult) :
    weightedFold [("images", c1), ("headings", c2), ("links", c3),
      ("forms", c4), ("structure", c5), ("contrast", c6)] =
      (c1.score * (15/100) + c2.score * (15/100) + c3.score * (10/100) +
        c4.score * (15/100) + c5.score * (20/100) + c6.score * (15/100),
       15/100 + 15/100 + 10/100 + 15/100 + 20/100 + 15/100) := by
  simp +decide [weightedFold, category_weights, List.lookup]

/-- C1: for every successfully parsed document, the total score is
`round(100 × Σ(categoryScore × weight) / Σ(weight))` over the six
evaluated categories with the fixed weights 0.15/0.15/0.10/0.15/0.20/0.15
(summing to 0.90, corrected by the division); in particular six perfect
category scores yield a total of 100. -/
theorem total_score_weighted_formula (url : String) (d : Document) :
    (run_accessibility_check url (some d)).total_score =
      pyRound (100 * ((check_alt_text d.imgs).1 * (15/100) +
        (check_heading_structure d.headings).1 * (15/100) +
        (check_descriptive_links d.anchors).1 * (10/100) +
        (check_form_labels d.labelFors d.controls).1 * (15/100) +
        (check_semantic_structure d.landmarks).1 * (20/100) +
        (check_color_contrast d.styles).1 * (15/100)) /
        (15/100 + 15/100 + 10/100 + 15/100 + 20/100 + 15/100)) ∧
    ((check_alt_text d.imgs).1 = 1 → (check_heading_structure d.headings).1 = 1 →
      (check_descriptive_links d.anchors).1 = 1 →
      (check_form_labels d.labelFors d.controls).1 = 1 →
      (check_semantic_structure d.landmarks).1 = 1 →
      (check_color_contrast d.styles).1 = 1 →
      (run_accessibility_check url (some d)).total_score = 100) := by
  have hw := weightedFold_six
    ⟨(check_alt_text d.imgs).1, (check_alt_text d.imgs).2⟩
    ⟨(check_heading_structure d.headings).1, (check_heading_structure d.headings).2⟩
    ⟨(check_descriptive_links d.anchors).1, (check_descriptive_links d.anchors).2⟩
    ⟨(check_form_labels d.labelFors d.controls).1, (check_form_labels d.labelFors d.controls).2⟩
    ⟨(check_semantic_structure d.landmarks).1, (check_semantic_structure d.landmarks).2⟩
    ⟨(check_color_contrast d.styles).1, (check_color_contrast d.styles).2⟩
  constructor
  · simp only [run_accessibility_check, hw]
    rw [if_pos (by norm_num :
      (15/100 + 15/100 + 10/100 + 15/100 + 20/100 + 15/100 : ℚ) > 0)]
    congr 1
    ring
  · intro h1 h2 h3 h4 h5 h6
    simp only [run_accessibility_check]
    rw [hw]
    simp only [h1, h2, h3, h4, h5, h6]
    rw [if_pos (by norm_num :
      (15/100 + 15/100 + 10/100 + 15/100 + 20/100 + 15/100 : ℚ) > 0)]
    norm_num [pyRound]

/-- A document on which every category scores 1: no images, a single h1,
no anchors, no form controls, three landmarks including `main`, and no
inline styles. -/
def perfectDoc : Document :=
  { imgs := [], headings := [1], anchors := [], controls := [], labelFors := [],
    landmarks := [Landmark.main, Landmark.header, Landmark.footer], styles := [] }

/-- Witness for C1: on `perfectDoc` all six checkers return 1 and the
total score is 100. -/
theorem total_score_weighted_formula_witness :
    (run_accessibility_check "https://example.com" (some perfectDoc)).total_score = 100 := by
  have e1 : (check_alt_text perfectDoc.imgs).1 = 1 := rfl
  have e2 : (check_heading_structure perfectDoc.headings).1 = 1 := by
    simp +decide [perfectDoc, check_heading_structure, headLoop, pyMax]
  have e3 : (check_descriptive_links perfectDoc.anchors).1 = 1 := rfl
  have e4 : (check_form_labels perfectDoc.labelFors perfectDoc.controls).1 = 1 := rfl
  have e5 : (check_semantic_structure perfectDoc.landmarks).1 = 1 := by
    simp +decide [perfectDoc, check_semantic_structure, pyMin, pyMax]
  have e6 : (check_color_contrast perfectDoc.styles).1 = 1 := by
    norm_num [perfectDoc, check_color_contrast, ccLoop, pyMin]
  exact (total_score_weighted_formula "https://example.com" perfectDoc).2 e1 e2 e3 e4 e5 e6

/-! ### Score invariants -/

theorem pyRound_nonneg (q : ℚ) (h : 0 ≤ q) : 0 ≤ pyRound q := by
  unfold pyRound
  have hf : (0:ℤ) ≤ ⌊q⌋ := Int.floor_nonneg.mpr h
  split_ifs <;> omega

theorem pyRound_le_100 (q : ℚ) (h : q ≤ 100) : pyRound q ≤ 100 := by
  have hf : ⌊q⌋ ≤ 100 := by
    have h1 : ⌊q⌋ ≤ ⌊(100:ℚ)⌋ := Int.floor_le_floor h
    have h2 : ⌊(100:ℚ)⌋ = 100 := by
      rw [(by norm_num : (100:ℚ) = ((100:ℤ):ℚ)), Int.floor_intCast]
    omega
  unfold pyRound
  split_ifs with h1 h2 h3
  · exact hf
  all_goals try exact hf
  all_goals
  · have hflt : ((⌊q⌋ : ℚ)) < 100 := by push_neg at h1; linarith [Int.floor_le q]
    have : ⌊q⌋ < 100 := by exact_mod_cast hflt
    omega

theorem check_alt_text_bounds (l : List Img) :
    0 ≤ (check_alt_text l).1 ∧ (check_alt_text l).1 ≤ 1 := by
  by_cases h : l.length = 0
  · simp only [check_alt_text, if_pos h]
    norm_num
  · simp only [check_alt_text, if_neg h, pyMax_eq, pyMin_eq]
    exact ⟨le_max_left 0 _, max_le (by norm_num) (min_le_right _ 1)⟩

theorem check_heading_structure_bounds (l : List Nat) :
    0 ≤ (check_heading_structure l).1 ∧ (check_heading_structure l).1 ≤ 1 := by
  by_cases h : l = []
  · simp only [check_heading_structure, if_pos h]
    norm_num
  · simp only [check_heading_structure, if_neg h, pyMax_eq, pyMin_eq]
    refine ⟨le_max_left 0 _, max_le (by norm_num) ?_⟩
    have hmin : (0:ℚ) ≤ min (1/2) (((headLoop 0 l).1 : ℚ) * (1/10)) :=
      le_min (by norm_num) (by positivity)
    split_ifs <;> linarith

theorem check_descriptive_links_bounds (l : List Anchor) :
    0 ≤ (check_descriptive_links l).1 ∧ (check_descriptive_links l).1 ≤ 1 := by
  by_cases h : l = []
  · simp only [check_descriptive_links, if_pos h]
    norm_num
  · simp only [check_descriptive_links, if_neg h, pyMax_eq]
    refine ⟨le_max_left 0 _, max_le (by norm_num) ?_⟩
    have hq : (0:ℚ) ≤ ((linkLoop l).1 : ℚ) / (l.length : ℚ) := by positivity
    linarith

theorem check_form_labels_bounds (fors : List String) (l : List FormControl) :
    0 ≤ (check_form_labels fors l).1 ∧ (check_form_labels fors l).1 ≤ 1 := by
  by_cases h : l = []
  · simp only [check_form_labels, if_pos h]
    norm_num
  · by_cases h0 : (fcLoop fors l).1 = 0
    · simp only [check_form_labels, if_neg h, if_pos h0]
      norm_num
    · simp only [check_form_labels, if_neg h, if_neg h0, pyMax_eq]
      refine ⟨le_max_left 0 _, max_le (by norm_num) ?_⟩
      have hq : (0:ℚ) ≤ ((fcLoop fors l).2.1 : ℚ) / ((fcLoop fors l).1 : ℚ) := by positivity
      linarith

theorem check_semantic_structure_bounds (l : List Landmark) :
    0 ≤ (check_semantic_structure l).1 ∧ (check_semantic_structure l).1 ≤ 1 := by
  by_cases hm : Landmark.main ∈ l
  · simp only [check_semantic_structure, pyMin_eq, pyMax_eq, if_pos
      (by simpa using hm : l.contains Landmark.main = true)]
    exact ⟨le_max_left 0 _, max_le (by norm_num) (min_le_left 1 _)⟩
  · simp only [check_semantic_structure, pyMin_eq, pyMax_eq, if_neg
      (by simpa using hm : ¬ l.contains Landmark.main = true)]
    refine ⟨le_max_left 0 _, max_le (by norm_num) ?_⟩
    have := min_le_left (1:ℚ) ((l.length : ℚ) / 3)
    linarith

theorem check_color_contrast_score (l : List String) :
    (check_color_contrast l).1 =
      1 - pyMin (1/2)
        (((ccLoop (l.filter (fun s => containsSeq "color".data s.data))).1 : ℚ) * (1/10)) := by
  simp only [check_color_contrast]
  split_ifs <;> rfl

theorem check_color_contrast_bounds (l : List String) :
    0 ≤ (check_color_contrast l).1 ∧ (check_color_contrast l).1 ≤ 1 := by
  rw [check_color_contrast_score, pyMin_eq]
  constructor
  · have := min_le_left (1/2 : ℚ)
      (((ccLoop (l.filter (fun s => containsSeq "color".data s.data))).1 : ℚ) * (1/10))
    linarith
  · have : (0:ℚ) ≤ min (1/2)
        (((ccLoop (l.filter (fun s => containsSeq "color".data s.data))).1 : ℚ) * (1/10)) :=
      le_min (by norm_num) (by positivity)
    linarith

/-- C3: for every successfully parsed document, every category score in
the report lies in `[0,1]` and the total score is an integer in
`[0,100]`. -/
theorem score_invariants (url : String) (d : Document) (p : String × CategoryResult)
    (hp : p ∈ (run_accessibility_check url (some d)).categories) :
    (0 ≤ p.2.score ∧ p.2.score ≤ 1) ∧
    0 ≤ (run_accessibility_check url (some d)).total_score ∧
    (run_accessibility_check url (some d)).total_score ≤ 100 := by
  have b1 := check_alt_text_bounds d.imgs
  have b2 := check_heading_structure_bounds d.headings
  have b3 := check_descriptive_links_bounds d.anchors
  have b4 := check_form_labels_bounds d.labelFors d.controls
  have b5 := check_semantic_structure_bounds d.landmarks
  have b6 := check_color_contrast_bounds d.styles
  constructor
  · simp only [run_accessibility_check, List.mem_cons, List.not_mem_nil, or_false] at hp
    rcases hp with rfl | rfl | rfl | rfl | rfl | rfl <;> simpa
  · have hw := weightedFold_six
      ⟨(check_alt_text d.imgs).1, (check_alt_text d.imgs).2⟩
      ⟨(check_heading_structure d.headings).1, (check_heading_structure d.headings).2⟩
      ⟨(check_descriptive_links d.anchors).1, (check_descriptive_links d.anchors).2⟩
      ⟨(check_form_labels d.labelFors d.controls).1,
        (check_form_labels d.labelFors d.controls).2⟩
      ⟨(check_semantic_structure d.landmarks).1, (check_semantic_structure d.landmarks).2⟩
      ⟨(check_color_contrast d.styles).1, (check_color_contrast d.styles).2⟩
    simp only [run_accessibility_check]
    rw [hw]
    rw [if_pos (by norm_num :
      (15/100 + 15/100 + 10/100 + 15/100 + 20/100 + 15/100 : ℚ) > 0)]
    have hS0 : (0:ℚ) ≤ (check_alt_text d.imgs).1 * (15/100) +
        (check_heading_structure d.headings).1 * (15/100) +
        (check_descriptive_links d.anchors).1 * (10/100) +
        (check_form_labels d.labelFors d.controls).1 * (15/100) +
        (check_semantic_structure d.landmarks).1 * (20/100) +
        (check_color_contrast d.styles).1 * (15/100) := by
      linarith [b1.1, b2.1, b3.1, b4.1, b5.1, b6.1]
    have hS1 : (check_alt_text d.imgs).1 * (15/100) +
        (check_heading_structure d.headings).1 * (15/100) +
        (check_descriptive_links d.anchors).1 * (10/100) +
        (check_form_labels d.labelFors d.controls).1 * (15/100) +
        (check_semantic_structure d.landmarks).1 * (20/100) +
        (check_color_contrast d.styles).1 * (15/100) ≤ 9/10 := by
      linarith [b1.2, b2.2, b3.2, b4.2, b5.2, b6.2]
    constructor
    · apply pyRound_nonneg
      have : (0:ℚ) ≤ (15/100 + 15/100 + 10/100 + 15/100 + 20/100 + 15/100 : ℚ) := by
        norm_num
      positivity
    · apply pyRound_le_100
      rw [div_mul_eq_mul_div, mul_comm]
      rw [div_le_iff₀ (by norm_num :
        (0:ℚ) < 15/100 + 15/100 + 10/100 + 15/100 + 20/100 + 15/100)]
      linarith

/-- Witness for C3: concrete bounds at `perfectDoc` and its images
category. -/
theorem score_invariants_witness :
    0 ≤ (run_accessibility_check "https://example.com" (some perfectDoc)).total_score ∧
    (run_accessibility_check "https://example.com" (some perfectDoc)).total_score ≤ 100 :=
  (score_invariants "https://example.com" perfectDoc
    ("images", ⟨(check_alt_text perfectDoc.imgs).1, (check_alt_text perfectDoc.imgs).2⟩)
    (by simp [run_accessibility_check])).2

/-- The alt-text example document: 4 images, 1 missing alt, 1 blank
non-decorative alt. -/
def imgs4 : List Img :=
  [⟨none, none, some "a.png"⟩, ⟨some " ", none, some "b.png"⟩,
   ⟨some "ok", none, none⟩, ⟨some "fine", none, none⟩]

/-- Witness for C4: on `imgs4` the checker scores `1 − (1 + 0.5)/4 = 0.625`
with two issues. -/
theorem alt_text_score_spec_witness :
    imgs4 ≠ [] ∧ (check_alt_text imgs4).1 = 5/8 ∧ (check_alt_text imgs4).2.length = 2 := by
  have h := (alt_text_score_spec imgs4).2 (by decide)
  have e1 : (imgs4.filter isFullMiss).length = 1 := by decide
  have e2 : (imgs4.filter isHalfMiss).length = 1 := by decide
  have e3 : imgs4.length = 4 := by decide
  refine ⟨by decide, ?_, ?_⟩
  · rw [h.1, e1, e2, e3, min_def, max_def]
    norm_num
  · rw [h.2, e1, e2]
